import Mathlib

/-!
Session table and event dispatcher of `app.c`.

A shallow embedding of `src/app.c`: the static session table
`s_ble_stack_session`, the static `advertising_set_handle`, the static callback
pointer `s_ble_stack__event_callback`, and the stack event handler
`sl_bt_on_event` with its helpers `session_update_characteristic`,
`on_ble_gatt_status` and `on_ble_write`.

The Bluetooth stack and the application callback are external collaborators.
Every command the handler sends to the stack is appended, together with the
status the stack returned, to a log kept in the state; every invocation of the
callback is appended to a second log.  The stack itself is an arbitrary
function from the log so far and the command to a response.

Integers are natural numbers.  The program performs no arithmetic: values are
only copied and compared, between fields that are no narrower than the value.
-/

namespace App

/-! ## Constants declared outside `app.c` -/

/-- Constants that `app.c` takes from headers that are not part of the sources
(`sl_bluetooth.h`, `gatt_db.h`, the stack configuration).  They are parameters
of the embedding. -/
structure Platform where
  SL_BT_CONFIG_MAX_CONNECTIONS : Nat
  gattdb_system_id : Nat
  advertiser_general_discoverable : Nat
  advertiser_connectable_scannable : Nat
deriving DecidableEq, Repr

/-- Modelled from the spec: `SL_STATUS_OK`, the success value of `sl_status_t`
(`sl_status.h` is not among the sources); every other status is non-success. -/
def SL_STATUS_OK : Nat := 0

/-- Modelled from the spec: the macro `app_assert_status` of `app_assert.h`
(not among the sources).  The spec describes it as a process-terminating
assertion on the status of a stack command: it passes exactly when the status
is success. -/
def app_assert_status (sc : Nat) : Bool := sc == SL_STATUS_OK

/-! ## Data model -/

/-- The struct `ble_stack_session_t`. -/
structure ble_stack_session_t where
  connection_handle : Nat
  characteristic_handle : Nat
deriving DecidableEq, Repr

/-- The enum `acp_service__evt_id_t`. -/
inductive acp_service__evt_id_t where
  | ACP_SERVICE_EVT__CONNECT
  | ACP_SERVICE_EVT__MTU_EXCHANGE
  | ACP_SERVICE_EVT__DISCONNECT
  | ACP_SERVICE_EVT__WRITE
  | ACP_SERVICE_EVT__TX_COMPLETE
deriving DecidableEq, Repr

/-- The struct `acp_service__gatts_evt_write_t`.  The pointer `p_data` is
represented by the bytes of the buffer it points to. -/
structure acp_service__gatts_evt_write_t where
  len : Nat
  p_data : List Nat
deriving DecidableEq, Repr

/-- The union `params` of `acp_service__evt_t`, as a tagged variant. -/
inductive acp_service__params_t where
  | gap_evt (reserve : Nat)
  | mtu_exchange (client_rx_mtu : Nat)
  | write (w : acp_service__gatts_evt_write_t)
deriving DecidableEq, Repr

/-- The struct `acp_service__evt_t`, the normalized event handed to the
application. -/
structure acp_service__evt_t where
  conn_handle : Nat
  evt_id : acp_service__evt_id_t
  params : acp_service__params_t
deriving DecidableEq, Repr

/-- One invocation of the application callback: the function pointer that was
called, the event passed, and the context pointer (`none` is `NULL`). -/
structure CallbackCall where
  callback : Nat
  p_ble_evt : acp_service__evt_t
  p_context : Option Nat
deriving DecidableEq, Repr

/-! ## The stack collaborator -/

/-- The type `bd_addr`: six address bytes. -/
structure bd_addr where
  addr : Fin 6 → Nat

/-- The byte array carried by an attribute-value event (`value.len`,
`value.data`). -/
structure uint8array where
  len : Nat
  data : List Nat
deriving DecidableEq, Repr

/-- The stack commands `sl_bt_on_event` issues, with their arguments. -/
inductive Cmd where
  | system_get_identity_address
  | gatt_server_write_attribute_value (attribute_id offset value_len : Nat) (value : List Nat)
  | advertiser_create_set
  | advertiser_set_timing (handle interval_min interval_max duration maxevents : Nat)
  | advertiser_start (handle discover connect : Nat)
deriving DecidableEq, Repr

/-- What the stack hands back for a command: the status `sc`, and the values it
stores through the output pointers (`address`, `address_type` for
`sl_bt_system_get_identity_address`; `handle` for
`sl_bt_advertiser_create_set`).  Outputs a command does not have are ignored. -/
structure Rsp where
  sc : Nat
  address : bd_addr
  address_type : Nat
  handle : Nat

/-- The stack: given the commands issued so far (with their statuses) and the
present command, its response. -/
abbrev Stack := List (Cmd × Nat) → Cmd → Rsp

/-- The events the stack delivers, by the case label of the `switch` on
`SL_BT_MSG_ID(evt->header)`, each with the payload fields the handler reads.
`other id` is an event whose identifier is none of the six case labels. -/
inductive sl_bt_msg_t where
  | system_boot
  | connection_opened
  | connection_parameters
  | gatt_server_attribute_value (connection : Nat) (value : uint8array)
  | gatt_server_characteristic_status (connection characteristic : Nat)
  | connection_closed
  | other (id : Nat)
deriving DecidableEq, Repr

/-! ## Program state -/

/-- The static variables of `app.c`, and the two logs of what the handler did
to its collaborators. -/
structure State where
  /-- The variable `advertising_set_handle`. -/
  advertising_set_handle : Nat
  /-- The array `s_ble_stack_session`. -/
  s_ble_stack_session : List ble_stack_session_t
  /-- The function pointer `s_ble_stack__event_callback`; `none` is `NULL`. -/
  s_ble_stack__event_callback : Option Nat
  /-- Stack commands issued, oldest first, each with the status returned. -/
  log : List (Cmd × Nat)
  /-- Invocations of the application callback, oldest first. -/
  calls : List CallbackCall
deriving DecidableEq, Repr

/-- How a call of `sl_bt_on_event` ends: it returns, an `app_assert_status`
fails, or it calls through a null function pointer. -/
inductive Exit where
  | returned
  | assert_failed
  | null_call
deriving DecidableEq, Repr

/-- The result of handling one event: how the call ended and the state then. -/
structure Outcome where
  exit : Exit
  state : State
deriving DecidableEq, Repr

/-- The state at program start: `advertising_set_handle = 0xff`, and the other
statics zero-initialized. -/
def startup (P : Platform) : State :=
  { advertising_set_handle := 0xff
    s_ble_stack_session := List.replicate P.SL_BT_CONFIG_MAX_CONNECTIONS ⟨0, 0⟩
    s_ble_stack__event_callback := none
    log := []
    calls := [] }

/-! ## Session table -/

/-- The loop of `session_update_characteristic` over the slots in index order:
a slot whose `connection_handle` differs is skipped (`continue`); the first
other slot gets the new `characteristic_handle` and the function returns. -/
def session_update_characteristic (conn_handle new_characteristic_handle : Nat) :
    List ble_stack_session_t → List ble_stack_session_t
  | [] => []
  | slot :: rest =>
    if slot.connection_handle ≠ conn_handle then
      slot :: session_update_characteristic conn_handle new_characteristic_handle rest
    else
      { slot with characteristic_handle := new_characteristic_handle } :: rest

/-- The slot a linear scan for `conn_handle` finds: the first one whose
`connection_handle` matches. -/
def session_find (conn_handle : Nat) (table : List ble_stack_session_t) :
    Option ble_stack_session_t :=
  table.find? (fun slot => slot.connection_handle = conn_handle)

/-! ## Event dispatcher -/

/-- Issue a command to the stack: the response, and the state with the command
and its status logged. -/
def call (stack : Stack) (s : State) (c : Cmd) : Rsp × State :=
  let r := stack s.log c
  (r, { s with log := s.log ++ [(c, r.sc)] })

/-- The assignments to `system_id[0..7]` in the boot case. -/
def system_id (address : bd_addr) : List Nat :=
  [address.addr 5, address.addr 4, address.addr 3, 0xFF, 0xFE,
   address.addr 2, address.addr 1, address.addr 0]

/-- The function `on_ble_gatt_status`. -/
def on_ble_gatt_status (s : State) (connection characteristic : Nat) : State :=
  { s with s_ble_stack_session :=
      session_update_characteristic connection characteristic s.s_ble_stack_session }

/-- The function `on_ble_write`: build the `WRITE` event and call the callback
pointer with it and a null context. -/
def on_ble_write (s : State) (connection : Nat) (value : uint8array) : Outcome :=
  let evt : acp_service__evt_t :=
    { conn_handle := connection
      evt_id := .ACP_SERVICE_EVT__WRITE
      params := .write { p_data := value.data, len := value.len } }
  match s.s_ble_stack__event_callback with
  | none => ⟨.null_call, s⟩
  | some cb => ⟨.returned, { s with calls := s.calls ++ [⟨cb, evt, none⟩] }⟩

/-- The boot case of `sl_bt_on_event`. -/
def on_system_boot (P : Platform) (stack : Stack) (s : State) : Outcome :=
  let (r1, s1) := call stack s .system_get_identity_address
  if !app_assert_status r1.sc then ⟨.assert_failed, s1⟩ else
  let (r2, s2) := call stack s1
    (.gatt_server_write_attribute_value P.gattdb_system_id 0 8 (system_id r1.address))
  if !app_assert_status r2.sc then ⟨.assert_failed, s2⟩ else
  let (r3, s3) := call stack s2 .advertiser_create_set
  let s3 := { s3 with advertising_set_handle := r3.handle }
  if !app_assert_status r3.sc then ⟨.assert_failed, s3⟩ else
  let (r4, s4) := call stack s3
    (.advertiser_set_timing s3.advertising_set_handle 160 160 0 0)
  if !app_assert_status r4.sc then ⟨.assert_failed, s4⟩ else
  let (r5, s5) := call stack s4
    (.advertiser_start s4.advertising_set_handle
      P.advertiser_general_discoverable P.advertiser_connectable_scannable)
  if !app_assert_status r5.sc then ⟨.assert_failed, s5⟩ else
  ⟨.returned, s5⟩

/-- The connection-closed case of `sl_bt_on_event`. -/
def on_connection_closed (P : Platform) (stack : Stack) (s : State) : Outcome :=
  let (r, s1) := call stack s
    (.advertiser_start s.advertising_set_handle
      P.advertiser_general_discoverable P.advertiser_connectable_scannable)
  if !app_assert_status r.sc then ⟨.assert_failed, s1⟩ else
  ⟨.returned, s1⟩

/-- The function `sl_bt_on_event`. -/
def sl_bt_on_event (P : Platform) (stack : Stack) (s : State) : sl_bt_msg_t → Outcome
  | .system_boot => on_system_boot P stack s
  | .connection_opened => ⟨.returned, s⟩
  | .connection_parameters => ⟨.returned, s⟩
  | .gatt_server_attribute_value connection value => on_ble_write s connection value
  | .gatt_server_characteristic_status connection characteristic =>
    ⟨.returned, on_ble_gatt_status s connection characteristic⟩
  | .connection_closed => on_connection_closed P stack s
  | .other _ => ⟨.returned, s⟩

/-- Deliver a sequence of events, one call of `sl_bt_on_event` each.  Delivery
stops at the first call that does not return. -/
def deliver (P : Platform) (stack : Stack) (s : State) : List sl_bt_msg_t → Outcome
  | [] => ⟨.returned, s⟩
  | evt :: rest =>
    match sl_bt_on_event P stack s evt with
    | ⟨.returned, s1⟩ => deliver P stack s1 rest
    | halted => halted

/-- The commands issued to the stack while an event was handled: the entries of
the outcome's log beyond the log of the state before. -/
def issued (s : State) (o : Outcome) : List (Cmd × Nat) :=
  o.state.log.drop s.log.length

/-! ## Concrete runs -/

/-- The stack events for a sequence of (connection, characteristic) status
changes. -/
def status_events (evs : List (Nat × Nat)) : List sl_bt_msg_t :=
  evs.map (fun e => sl_bt_msg_t.gatt_server_characteristic_status e.1 e.2)

/-- A platform for concrete runs: four connections. -/
def demoPlatform : Platform :=
  { SL_BT_CONFIG_MAX_CONNECTIONS := 4
    gattdb_system_id := 18
    advertiser_general_discoverable := 2
    advertiser_connectable_scannable := 2 }

/-- A stack for concrete runs: every command succeeds, the identity address is
`{0x01,0x02,0x03,0x04,0x05,0x06}`, and the advertising set created is the
number of commands issued before. -/
def demoStack : Stack := fun log _ =>
  { sc := SL_STATUS_OK
    address := ⟨fun i => i.val + 1⟩
    address_type := 0
    handle := log.length }

/-- A stack for concrete runs that behaves as `demoStack` except that
`sl_bt_advertiser_create_set` fails with status 1. -/
def failingStack : Stack := fun log c =>
  { sc := if c = Cmd.advertiser_create_set then 1 else SL_STATUS_OK
    address := ⟨fun i => i.val + 1⟩
    address_type := 0
    handle := log.length }

/-- A state for concrete runs: connections 3 and 7 have slots, a callback is
registered. -/
def demoState : State :=
  { advertising_set_handle := 0xff
    s_ble_stack_session := [⟨3, 0⟩, ⟨7, 0⟩, ⟨0, 0⟩, ⟨0, 0⟩]
    s_ble_stack__event_callback := some 1
    log := []
    calls := [] }

/-- The state after a boot event handled from the startup state of
`demoPlatform` on `demoStack`. -/
def bootedState : State :=
  { advertising_set_handle := 2
    s_ble_stack_session := [⟨0, 0⟩, ⟨0, 0⟩, ⟨0, 0⟩, ⟨0, 0⟩]
    s_ble_stack__event_callback := none
    log :=
      [(Cmd.system_get_identity_address, 0),
       (Cmd.gatt_server_write_attribute_value 18 0 8
          [0x06, 0x05, 0x04, 0xFF, 0xFE, 0x03, 0x02, 0x01], 0),
       (Cmd.advertiser_create_set, 0),
       (Cmd.advertiser_set_timing 2 160 160 0 0, 0),
       (Cmd.advertiser_start 2 2 2, 0)]
    calls := [] }

/-! ## Lemmas on the session table -/

theorem session_update_characteristic_handles (c v : Nat) (table : List ble_stack_session_t) :
    (session_update_characteristic c v table).map (fun slot => slot.connection_handle)
      = table.map (fun slot => slot.connection_handle) := by
  induction table with
  | nil => rfl
  | cons slot rest ih =>
    by_cases h : slot.connection_handle = c
    · simp [session_update_characteristic, h]
    · simp [session_update_characteristic, h, ih]

theorem session_update_characteristic_absent (c v : Nat) (table : List ble_stack_session_t)
    (h : ∀ slot ∈ table, slot.connection_handle ≠ c) :
    session_update_characteristic c v table = table := by
  induction table with
  | nil => rfl
  | cons slot rest ih =>
    have h1 : slot.connection_handle ≠ c := h slot (List.mem_cons_self _ _)
    have h2 : ∀ x ∈ rest, x.connection_handle ≠ c :=
      fun x hx => h x (List.mem_cons_of_mem _ hx)
    simp [session_update_characteristic, h1, ih h2]

theorem session_find_update_same (c v : Nat) (table : List ble_stack_session_t)
    (h : c ∈ table.map (fun slot => slot.connection_handle)) :
    session_find c (session_update_characteristic c v table) = some ⟨c, v⟩ := by
  induction table with
  | nil => simp at h
  | cons slot rest ih =>
    by_cases hs : slot.connection_handle = c
    · simp [session_update_characteristic, session_find, hs]
    · have hr : c ∈ rest.map (fun slot => slot.connection_handle) := by
        simp only [List.map_cons, List.mem_cons] at h
        rcases h with h | h
        · exact absurd h.symm hs
        · exact h
      have := ih hr
      simp only [session_find] at this
      simp [session_update_characteristic, session_find, hs, this]

theorem session_find_update_other (c c1 v : Nat) (table : List ble_stack_session_t)
    (h : c1 ≠ c) :
    session_find c (session_update_characteristic c1 v table) = session_find c table := by
  induction table with
  | nil => rfl
  | cons slot rest ih =>
    simp only [session_find] at ih
    by_cases hs : slot.connection_handle = c1
    · have hc : slot.connection_handle ≠ c := by rw [hs]; exact h
      simp [session_update_characteristic, session_find, hs, hc, h]
    · by_cases hc : slot.connection_handle = c
      · have h2 : ¬ c = c1 := fun e => h e.symm
        simp [session_update_characteristic, session_find, hc, h2]
      · simp [session_update_characteristic, session_find, hs, hc, ih]

/-! ## Lemmas on the dispatcher -/

theorem app_assert_status_ok : app_assert_status SL_STATUS_OK = true := rfl

theorem app_assert_status_of_ne (sc : Nat) (h : ¬ sc = SL_STATUS_OK) :
    app_assert_status sc = false := by
  simp [app_assert_status, h]

/-- The boot case when all five commands succeed: `a` is the address the stack
returned, `h` the advertising set it created. -/
theorem on_system_boot_success (P : Platform) (stack : Stack) (s : State)
    (a : bd_addr) (h : Nat)
    (ha : (stack s.log Cmd.system_get_identity_address).address = a)
    (hh : (stack (s.log ++ [(Cmd.system_get_identity_address, SL_STATUS_OK),
              (Cmd.gatt_server_write_attribute_value P.gattdb_system_id 0 8 (system_id a),
                SL_STATUS_OK)])
            Cmd.advertiser_create_set).handle = h)
    (hok : ∀ entry ∈ issued s (on_system_boot P stack s), entry.2 = SL_STATUS_OK) :
    on_system_boot P stack s = ⟨Exit.returned,
      { s with
        advertising_set_handle := h
        log := s.log ++
          [(Cmd.system_get_identity_address, SL_STATUS_OK),
           (Cmd.gatt_server_write_attribute_value P.gattdb_system_id 0 8 (system_id a),
              SL_STATUS_OK),
           (Cmd.advertiser_create_set, SL_STATUS_OK),
           (Cmd.advertiser_set_timing h 160 160 0 0, SL_STATUS_OK),
           (Cmd.advertiser_start h
              P.advertiser_general_discoverable P.advertiser_connectable_scannable,
              SL_STATUS_OK)] }⟩ := by
  simp only [on_system_boot, call, issued, ha, List.append_assoc, List.cons_append, List.nil_append] at hok ⊢
  by_cases h1 : (stack s.log Cmd.system_get_identity_address).sc = SL_STATUS_OK
  · simp only [h1, app_assert_status_ok, Bool.not_true, Bool.false_eq_true, if_false,
      List.append_assoc, List.cons_append, List.nil_append] at hok ⊢
    by_cases h2 : (stack (s.log ++ [(Cmd.system_get_identity_address, SL_STATUS_OK)])
        (Cmd.gatt_server_write_attribute_value P.gattdb_system_id 0 8 (system_id a))).sc
          = SL_STATUS_OK
    · simp only [h2, hh, app_assert_status_ok, Bool.not_true, Bool.false_eq_true, if_false,
      List.append_assoc, List.cons_append, List.nil_append]
        at hok ⊢
      by_cases h3 : (stack (s.log ++ [(Cmd.system_get_identity_address, SL_STATUS_OK),
              (Cmd.gatt_server_write_attribute_value P.gattdb_system_id 0 8 (system_id a),
                SL_STATUS_OK)])
            Cmd.advertiser_create_set).sc = SL_STATUS_OK
      · simp only [h3, app_assert_status_ok, Bool.not_true, Bool.false_eq_true, if_false,
      List.append_assoc, List.cons_append, List.nil_append]
          at hok ⊢
        by_cases h4 : (stack (s.log ++ [(Cmd.system_get_identity_address, SL_STATUS_OK),
              (Cmd.gatt_server_write_attribute_value P.gattdb_system_id 0 8 (system_id a),
                SL_STATUS_OK), (Cmd.advertiser_create_set, SL_STATUS_OK)])
            (Cmd.advertiser_set_timing h 160 160 0 0)).sc = SL_STATUS_OK
        · simp only [h4, app_assert_status_ok, Bool.not_true, Bool.false_eq_true, if_false,
      List.append_assoc, List.cons_append, List.nil_append]
            at hok ⊢
          by_cases h5 : (stack (s.log ++ [(Cmd.system_get_identity_address, SL_STATUS_OK),
              (Cmd.gatt_server_write_attribute_value P.gattdb_system_id 0 8 (system_id a),
                SL_STATUS_OK), (Cmd.advertiser_create_set, SL_STATUS_OK),
              (Cmd.advertiser_set_timing h 160 160 0 0, SL_STATUS_OK)])
            (Cmd.advertiser_start h P.advertiser_general_discoverable
              P.advertiser_connectable_scannable)).sc = SL_STATUS_OK
          · simp only [h5, app_assert_status_ok, Bool.not_true, Bool.false_eq_true, if_false,
      List.append_assoc, List.cons_append, List.nil_append]
          · exfalso
            simp [app_assert_status_of_ne _ h5, h5] at hok
        · exfalso
          simp [app_assert_status_of_ne _ h4, h4] at hok
      · exfalso
        simp [app_assert_status_of_ne _ h3, h3] at hok
    · exfalso
      simp [app_assert_status_of_ne _ h2, h2] at hok
  · exfalso
    simp [app_assert_status_of_ne _ h1, h1] at hok

/-- The boot case: the log grows by the commands issued, the exit is a return
or a failed assertion, it is a failed assertion exactly when a command issued
did not succeed, and every command but the last issued succeeded. -/
theorem on_system_boot_log (P : Platform) (stack : Stack) (s : State) :
    (on_system_boot P stack s).state.log
      = s.log ++ issued s (on_system_boot P stack s) ∧
    ((on_system_boot P stack s).exit = Exit.assert_failed ↔
      ∃ entry ∈ issued s (on_system_boot P stack s), entry.2 ≠ SL_STATUS_OK) ∧
    ((on_system_boot P stack s).exit = Exit.returned ↔
      ∀ entry ∈ issued s (on_system_boot P stack s), entry.2 = SL_STATUS_OK) ∧
    (∀ entry ∈ (issued s (on_system_boot P stack s)).dropLast, entry.2 = SL_STATUS_OK) := by
  simp only [on_system_boot, call, issued]
  generalize stack s.log Cmd.system_get_identity_address = r1
  generalize stack (s.log ++ [(Cmd.system_get_identity_address, r1.sc)])
    (Cmd.gatt_server_write_attribute_value P.gattdb_system_id 0 8 (system_id r1.address)) = r2
  generalize stack (s.log ++ [(Cmd.system_get_identity_address, r1.sc)] ++
    [(Cmd.gatt_server_write_attribute_value P.gattdb_system_id 0 8 (system_id r1.address),
      r2.sc)]) Cmd.advertiser_create_set = r3
  generalize stack (s.log ++ [(Cmd.system_get_identity_address, r1.sc)] ++
    [(Cmd.gatt_server_write_attribute_value P.gattdb_system_id 0 8 (system_id r1.address),
      r2.sc)] ++ [(Cmd.advertiser_create_set, r3.sc)])
    (Cmd.advertiser_set_timing r3.handle 160 160 0 0) = r4
  generalize stack (s.log ++ [(Cmd.system_get_identity_address, r1.sc)] ++
    [(Cmd.gatt_server_write_attribute_value P.gattdb_system_id 0 8 (system_id r1.address),
      r2.sc)] ++ [(Cmd.advertiser_create_set, r3.sc)] ++
    [(Cmd.advertiser_set_timing r3.handle 160 160 0 0, r4.sc)])
    (Cmd.advertiser_start r3.handle P.advertiser_general_discoverable
      P.advertiser_connectable_scannable) = r5
  by_cases h1 : r1.sc = SL_STATUS_OK
  · by_cases h2 : r2.sc = SL_STATUS_OK
    · by_cases h3 : r3.sc = SL_STATUS_OK
      · by_cases h4 : r4.sc = SL_STATUS_OK
        · by_cases h5 : r5.sc = SL_STATUS_OK
          · simp [h1, h2, h3, h4, h5, app_assert_status_ok]
          · simp [h1, h2, h3, h4, h5, app_assert_status_ok, app_assert_status_of_ne _ h5]
        · simp [h1, h2, h3, h4, app_assert_status_ok, app_assert_status_of_ne _ h4]
      · simp [h1, h2, h3, app_assert_status_ok, app_assert_status_of_ne _ h3]
    · simp [h1, h2, app_assert_status_ok, app_assert_status_of_ne _ h2]
  · simp [h1, app_assert_status_of_ne _ h1]

/-- The connection-closed case, as `on_system_boot_log`. -/
theorem on_connection_closed_log (P : Platform) (stack : Stack) (s : State) :
    (on_connection_closed P stack s).state.log
      = s.log ++ issued s (on_connection_closed P stack s) ∧
    ((on_connection_closed P stack s).exit = Exit.assert_failed ↔
      ∃ entry ∈ issued s (on_connection_closed P stack s), entry.2 ≠ SL_STATUS_OK) ∧
    ((on_connection_closed P stack s).exit = Exit.returned ↔
      ∀ entry ∈ issued s (on_connection_closed P stack s), entry.2 = SL_STATUS_OK) ∧
    (∀ entry ∈ (issued s (on_connection_closed P stack s)).dropLast,
      entry.2 = SL_STATUS_OK) := by
  simp only [on_connection_closed, call, issued]
  generalize stack s.log (Cmd.advertiser_start s.advertising_set_handle
    P.advertiser_general_discoverable P.advertiser_connectable_scannable) = r
  by_cases h : r.sc = SL_STATUS_OK
  · simp [h, app_assert_status_ok]
  · simp [h, app_assert_status_of_ne _ h]

/-- The boot case leaves the session table, the callback pointer and the
callback log as they were, and never calls through the callback pointer. -/
theorem on_system_boot_frame (P : Platform) (stack : Stack) (s : State) :
    (on_system_boot P stack s).state.s_ble_stack_session = s.s_ble_stack_session ∧
    (on_system_boot P stack s).state.s_ble_stack__event_callback
      = s.s_ble_stack__event_callback ∧
    (on_system_boot P stack s).state.calls = s.calls := by
  simp only [on_system_boot, call]
  split_ifs <;> exact ⟨rfl, rfl, rfl⟩

/-- The boot case, once the address query has succeeded, issues the write of
the system identifier derived from the address as its second command, and no
other attribute write. -/
theorem on_system_boot_system_id (P : Platform) (stack : Stack) (s : State) (a : bd_addr)
    (hsc : (stack s.log Cmd.system_get_identity_address).sc = SL_STATUS_OK)
    (ha : (stack s.log Cmd.system_get_identity_address).address = a) :
    (∃ sc rest, issued s (on_system_boot P stack s) =
      (Cmd.system_get_identity_address, SL_STATUS_OK) ::
      (Cmd.gatt_server_write_attribute_value P.gattdb_system_id 0 8 (system_id a), sc) ::
      rest) ∧
    (∀ entry ∈ issued s (on_system_boot P stack s),
      ∀ attribute_id offset value_len value,
        entry.1 = Cmd.gatt_server_write_attribute_value attribute_id offset value_len value →
        entry.1 = Cmd.gatt_server_write_attribute_value P.gattdb_system_id 0 8
          (system_id a)) := by
  simp only [on_system_boot, call, issued, hsc, ha, app_assert_status_ok, Bool.not_true,
    Bool.false_eq_true, if_false]
  generalize stack (s.log ++ [(Cmd.system_get_identity_address, SL_STATUS_OK)])
    (Cmd.gatt_server_write_attribute_value P.gattdb_system_id 0 8 (system_id a)) = r2
  generalize stack (s.log ++ [(Cmd.system_get_identity_address, SL_STATUS_OK)] ++
    [(Cmd.gatt_server_write_attribute_value P.gattdb_system_id 0 8 (system_id a),
      r2.sc)]) Cmd.advertiser_create_set = r3
  generalize stack (s.log ++ [(Cmd.system_get_identity_address, SL_STATUS_OK)] ++
    [(Cmd.gatt_server_write_attribute_value P.gattdb_system_id 0 8 (system_id a),
      r2.sc)] ++ [(Cmd.advertiser_create_set, r3.sc)])
    (Cmd.advertiser_set_timing r3.handle 160 160 0 0) = r4
  generalize stack (s.log ++ [(Cmd.system_get_identity_address, SL_STATUS_OK)] ++
    [(Cmd.gatt_server_write_attribute_value P.gattdb_system_id 0 8 (system_id a),
      r2.sc)] ++ [(Cmd.advertiser_create_set, r3.sc)] ++
    [(Cmd.advertiser_set_timing r3.handle 160 160 0 0, r4.sc)])
    (Cmd.advertiser_start r3.handle P.advertiser_general_discoverable
      P.advertiser_connectable_scannable) = r5
  split_ifs <;> simp

/-- Handling one event never changes the `connection_handle` of a slot. -/
theorem sl_bt_on_event_handles (P : Platform) (stack : Stack) (s : State) (evt : sl_bt_msg_t) :
    (sl_bt_on_event P stack s evt).state.s_ble_stack_session.map
        (fun slot => slot.connection_handle)
      = s.s_ble_stack_session.map (fun slot => slot.connection_handle) := by
  cases evt with
  | system_boot =>
    simp only [sl_bt_on_event]
    rw [(on_system_boot_frame P stack s).1]
  | connection_opened => rfl
  | connection_parameters => rfl
  | gatt_server_attribute_value connection value =>
    simp only [sl_bt_on_event, on_ble_write]
    cases s.s_ble_stack__event_callback <;> rfl
  | gatt_server_characteristic_status connection characteristic =>
    simp only [sl_bt_on_event, on_ble_gatt_status]
    exact session_update_characteristic_handles _ _ _
  | connection_closed =>
    simp only [sl_bt_on_event, on_connection_closed, call]
    split_ifs <;> rfl
  | other id => rfl

theorem deliver_handles (P : Platform) (stack : Stack) (evts : List sl_bt_msg_t) :
    ∀ s : State,
      (deliver P stack s evts).state.s_ble_stack_session.map
          (fun slot => slot.connection_handle)
        = s.s_ble_stack_session.map (fun slot => slot.connection_handle) := by
  induction evts with
  | nil => intro s; rfl
  | cons evt rest ih =>
    intro s
    have hstep := sl_bt_on_event_handles P stack s evt
    cases h : sl_bt_on_event P stack s evt with
    | mk ex s1 =>
      rw [h] at hstep
      cases ex with
      | returned =>
        simp only [deliver, h]
        rw [ih s1]
        exact hstep
      | assert_failed =>
        simp only [deliver, h]
        exact hstep
      | null_call =>
        simp only [deliver, h]
        exact hstep

/-- An event other than boot leaves `advertising_set_handle` as it was. -/
theorem sl_bt_on_event_advertising_set_handle (P : Platform) (stack : Stack) (s : State)
    (evt : sl_bt_msg_t) (h : evt ≠ sl_bt_msg_t.system_boot) :
    (sl_bt_on_event P stack s evt).state.advertising_set_handle
      = s.advertising_set_handle := by
  cases evt with
  | system_boot => exact absurd rfl h
  | connection_opened => rfl
  | connection_parameters => rfl
  | gatt_server_attribute_value connection value =>
    simp only [sl_bt_on_event, on_ble_write]
    cases s.s_ble_stack__event_callback <;> rfl
  | gatt_server_characteristic_status connection characteristic => rfl
  | connection_closed =>
    simp only [sl_bt_on_event, on_connection_closed, call]
    split_ifs <;> rfl
  | other id => rfl

theorem deliver_advertising_set_handle (P : Platform) (stack : Stack)
    (evts : List sl_bt_msg_t) (hno : sl_bt_msg_t.system_boot ∉ evts) :
    ∀ s : State,
      (deliver P stack s evts).state.advertising_set_handle = s.advertising_set_handle := by
  induction evts with
  | nil => intro s; rfl
  | cons evt rest ih =>
    intro s
    have hevt : evt ≠ sl_bt_msg_t.system_boot := fun e => hno (e ▸ List.mem_cons_self _ _)
    have hrest : sl_bt_msg_t.system_boot ∉ rest := fun m => hno (List.mem_cons_of_mem _ m)
    have hstep := sl_bt_on_event_advertising_set_handle P stack s evt hevt
    cases h : sl_bt_on_event P stack s evt with
    | mk ex s1 =>
      rw [h] at hstep
      cases ex with
      | returned =>
        simp only [deliver, h]
        rw [ih hrest s1]
        exact hstep
      | assert_failed =>
        simp only [deliver, h]
        exact hstep
      | null_call =>
        simp only [deliver, h]
        exact hstep

/-- A boot that returns ends with the start command for the handle it stored. -/
theorem on_system_boot_returned_last (P : Platform) (stack : Stack) (s0 s1 : State)
    (hboot : on_system_boot P stack s0 = ⟨Exit.returned, s1⟩) :
    (issued s0 (on_system_boot P stack s0)).getLast? =
      some (Cmd.advertiser_start s1.advertising_set_handle
        P.advertiser_general_discoverable P.advertiser_connectable_scannable,
        SL_STATUS_OK) := by
  have hex : (on_system_boot P stack s0).exit = Exit.returned := by rw [hboot]
  have hok := (on_system_boot_log P stack s0).2.2.1.mp hex
  have hs := on_system_boot_success P stack s0 _ _ rfl rfl hok
  rw [hboot] at hs
  have h1 : s1 = _ := congrArg Outcome.state hs
  rw [hboot, h1]
  simp [issued]

/-- The connection-closed case issues exactly the start command for the stored
handle, and changes nothing but the log. -/
theorem on_connection_closed_effect (P : Platform) (stack : Stack) (s : State) :
    (on_connection_closed P stack s).state =
      { s with log := s.log ++
        [(Cmd.advertiser_start s.advertising_set_handle
            P.advertiser_general_discoverable P.advertiser_connectable_scannable,
          (stack s.log (Cmd.advertiser_start s.advertising_set_handle
            P.advertiser_general_discoverable P.advertiser_connectable_scannable)).sc)] } := by
  simp only [on_connection_closed, call]
  split_ifs <;> rfl

theorem deliver_status_events (P : Platform) (stack : Stack) (evs : List (Nat × Nat)) :
    ∀ s : State, deliver P stack s (status_events evs) =
      ⟨.returned, { s with s_ble_stack_session :=
        (evs.foldl (fun t e => session_update_characteristic e.1 e.2 t)
          s.s_ble_stack_session) }⟩ := by
  induction evs with
  | nil => intro s; rfl
  | cons e rest ih =>
    intro s
    simp only [status_events, List.map_cons, deliver, sl_bt_on_event, on_ble_gatt_status,
      List.foldl_cons]
    have := ih { s with s_ble_stack_session :=
      session_update_characteristic e.1 e.2 s.s_ble_stack_session }
    simpa [status_events] using this

theorem foldl_update_handles (evs : List (Nat × Nat)) :
    ∀ table : List ble_stack_session_t,
      (evs.foldl (fun t e => session_update_characteristic e.1 e.2 t) table).map
          (fun slot => slot.connection_handle)
        = table.map (fun slot => slot.connection_handle) := by
  induction evs with
  | nil => intro table; rfl
  | cons e rest ih =>
    intro table
    rw [List.foldl_cons, ih, session_update_characteristic_handles]

theorem foldl_update_last (c : Nat) (table : List ble_stack_session_t)
    (hc : c ∈ table.map (fun slot => slot.connection_handle)) (evs : List (Nat × Nat)) :
    ∀ e, (evs.filter (fun x => x.1 = c)).getLast? = some e →
      session_find c (evs.foldl (fun t x => session_update_characteristic x.1 x.2 t) table)
        = some ⟨c, e.2⟩ := by
  induction evs using List.reverseRecOn with
  | nil => intro e h; simp at h
  | append_singleton init x ih =>
    intro e h
    rw [List.foldl_append, List.foldl_cons, List.foldl_nil]
    by_cases hx : x.1 = c
    · have he : e = x := by
        simp [List.filter_append, hx] at h
        exact h.symm
      subst he
      rw [hx]
      apply session_find_update_same
      rw [foldl_update_handles]
      exact hc
    · rw [session_find_update_other c x.1 x.2 _ hx]
      apply ih
      simpa [List.filter_append, hx] using h

/-- Handling one event never assigns the callback pointer, and while the
pointer is null no callback call is logged. -/
theorem sl_bt_on_event_callback (P : Platform) (stack : Stack) (s : State)
    (evt : sl_bt_msg_t) :
    (sl_bt_on_event P stack s evt).state.s_ble_stack__event_callback
      = s.s_ble_stack__event_callback ∧
    (s.s_ble_stack__event_callback = none →
      (sl_bt_on_event P stack s evt).state.calls = s.calls) := by
  cases evt with
  | system_boot =>
    simp only [sl_bt_on_event]
    exact ⟨(on_system_boot_frame P stack s).2.1, fun _ => (on_system_boot_frame P stack s).2.2⟩
  | connection_opened => exact ⟨rfl, fun _ => rfl⟩
  | connection_parameters => exact ⟨rfl, fun _ => rfl⟩
  | gatt_server_attribute_value connection value =>
    simp only [sl_bt_on_event, on_ble_write]
    cases hcb : s.s_ble_stack__event_callback with
    | none => simp [hcb]
    | some cb => simp [hcb]
  | gatt_server_characteristic_status connection characteristic =>
    exact ⟨rfl, fun _ => rfl⟩
  | connection_closed =>
    simp [sl_bt_on_event, on_connection_closed_effect]
  | other id => exact ⟨rfl, fun _ => rfl⟩

theorem deliver_callback (P : Platform) (stack : Stack) (evts : List sl_bt_msg_t) :
    ∀ s : State, s.s_ble_stack__event_callback = none → s.calls = [] →
      (deliver P stack s evts).state.s_ble_stack__event_callback = none ∧
      (deliver P stack s evts).state.calls = [] := by
  induction evts with
  | nil => intro s h1 h2; exact ⟨h1, h2⟩
  | cons evt rest ih =>
    intro s h1 h2
    have hstep := sl_bt_on_event_callback P stack s evt
    cases h : sl_bt_on_event P stack s evt with
    | mk ex s1 =>
      rw [h] at hstep
      have hc : s1.s_ble_stack__event_callback = none := hstep.1.trans h1
      have hl : s1.calls = [] := (hstep.2 h1).trans h2
      cases ex with
      | returned =>
        simp only [deliver, h]
        exact ih s1 hc hl
      | assert_failed =>
        simp only [deliver, h]
        exact ⟨hc, hl⟩
      | null_call =>
        simp only [deliver, h]
        exact ⟨hc, hl⟩

/-- What `on_ble_write` does in a state in which the callback pointer is not
null: the dispatcher returns having called the callback once, with a `WRITE`
event carrying the connection handle, the payload length and the payload
bytes, and with a null context; nothing else of the state changes. -/
theorem on_ble_write_registered (P : Platform) (stack : Stack) (s : State)
    (cb connection : Nat) (value : uint8array)
    (hcb : s.s_ble_stack__event_callback = some cb) :
    sl_bt_on_event P stack s (sl_bt_msg_t.gatt_server_attribute_value connection value) =
      ⟨Exit.returned,
        { s with calls := s.calls ++
          [{ callback := cb
             p_ble_evt :=
               { conn_handle := connection
                 evt_id := acp_service__evt_id_t.ACP_SERVICE_EVT__WRITE
                 params := acp_service__params_t.write
                   { len := value.len, p_data := value.data } }
             p_context := none }] }⟩ := by
  simp [sl_bt_on_event, on_ble_write, hcb]

/-! ## The claims -/

/-- C1: for every session table holding a slot for connection `c`, after the
dispatcher has handled a sequence of characteristic status-change events (for
`c` and for other connections, in any interleaving) of which at least one
references `c`, every call has returned, and the slot a scan for `c` finds
records the characteristic of the last event of the sequence that references
`c`. -/
theorem status_last_write_wins (P : Platform) (stack : Stack) (s : State) (c : Nat)
    (evs : List (Nat × Nat)) (e : Nat × Nat)
    (hc : c ∈ s.s_ble_stack_session.map (fun slot => slot.connection_handle))
    (hlast : (evs.filter (fun x => x.1 = c)).getLast? = some e) :
    (deliver P stack s (status_events evs)).exit = Exit.returned ∧
    (session_find c (deliver P stack s (status_events evs)).state.s_ble_stack_session).map
        (fun slot => slot.characteristic_handle) = some e.2 := by
  rw [deliver_status_events]
  refine ⟨rfl, ?_⟩
  simp only []
  rw [foldl_update_last c _ hc evs e hlast]
  rfl

theorem status_last_write_wins_witness :
    7 ∈ demoState.s_ble_stack_session.map (fun slot => slot.connection_handle) ∧
    ([(7, 42), (3, 5), (7, 99), (3, 6)].filter (fun x => x.1 = 7)).getLast? = some (7, 99) ∧
    (deliver demoPlatform demoStack demoState
        (status_events [(7, 42), (3, 5), (7, 99), (3, 6)])).exit = Exit.returned ∧
    (session_find 7 (deliver demoPlatform demoStack demoState
        (status_events [(7, 42), (3, 5), (7, 99), (3, 6)])).state.s_ble_stack_session).map
        (fun slot => slot.characteristic_handle) = some 99 :=
  ⟨by decide, by decide,
    status_last_write_wins demoPlatform demoStack demoState 7
      [(7, 42), (3, 5), (7, 99), (3, 6)] (7, 99) (by decide) (by decide)⟩

/-- C2: a characteristic status-change event whose connection handle is the
`connection_handle` of no slot leaves the session table as it was (same slots,
same fields), both through `session_update_characteristic` and through the
dispatcher, which returns with the whole state unchanged. -/
theorem status_unknown_connection_noop (P : Platform) (stack : Stack) (s : State)
    (connection characteristic : Nat)
    (h : ∀ slot ∈ s.s_ble_stack_session, slot.connection_handle ≠ connection) :
    session_update_characteristic connection characteristic s.s_ble_stack_session
      = s.s_ble_stack_session ∧
    sl_bt_on_event P stack s
      (sl_bt_msg_t.gatt_server_characteristic_status connection characteristic)
      = ⟨Exit.returned, s⟩ := by
  have h1 := session_update_characteristic_absent connection characteristic _ h
  refine ⟨h1, ?_⟩
  simp [sl_bt_on_event, on_ble_gatt_status, h1]

theorem status_unknown_connection_noop_witness :
    (∀ slot ∈ demoState.s_ble_stack_session, slot.connection_handle ≠ 9) ∧
    session_update_characteristic 9 42 demoState.s_ble_stack_session
      = demoState.s_ble_stack_session ∧
    sl_bt_on_event demoPlatform demoStack demoState
      (sl_bt_msg_t.gatt_server_characteristic_status 9 42)
      = ⟨Exit.returned, demoState⟩ :=
  ⟨by decide,
    status_unknown_connection_noop demoPlatform demoStack demoState 9 42 (by decide)⟩

/-- C3: once the stack has returned the identity address `a`, the boot handler
issues as its second command the write of the system-ID attribute at offset 0
with length 8 and the value `[a[5], a[4], a[3], 0xFF, 0xFE, a[2], a[1], a[0]]`,
and it issues no other attribute write; the value is a function of the address
alone. -/
theorem boot_writes_system_id (P : Platform) (stack : Stack) (s : State) (a : bd_addr)
    (hsc : (stack s.log Cmd.system_get_identity_address).sc = SL_STATUS_OK)
    (ha : (stack s.log Cmd.system_get_identity_address).address = a) :
    (∃ sc rest, issued s (sl_bt_on_event P stack s sl_bt_msg_t.system_boot) =
      (Cmd.system_get_identity_address, SL_STATUS_OK) ::
      (Cmd.gatt_server_write_attribute_value P.gattdb_system_id 0 8
        [a.addr 5, a.addr 4, a.addr 3, 0xFF, 0xFE, a.addr 2, a.addr 1, a.addr 0], sc) ::
      rest) ∧
    (∀ entry ∈ issued s (sl_bt_on_event P stack s sl_bt_msg_t.system_boot),
      ∀ attribute_id offset value_len value,
        entry.1 = Cmd.gatt_server_write_attribute_value attribute_id offset value_len value →
        entry.1 = Cmd.gatt_server_write_attribute_value P.gattdb_system_id 0 8
          [a.addr 5, a.addr 4, a.addr 3, 0xFF, 0xFE, a.addr 2, a.addr 1, a.addr 0]) :=
  on_system_boot_system_id P stack s a hsc ha

theorem boot_writes_system_id_witness :
    (demoStack demoState.log Cmd.system_get_identity_address).sc = SL_STATUS_OK ∧
    (demoStack demoState.log Cmd.system_get_identity_address).address.addr
      = (fun i => i.val + 1) ∧
    (∃ sc rest, issued demoState
        (sl_bt_on_event demoPlatform demoStack demoState sl_bt_msg_t.system_boot) =
      (Cmd.system_get_identity_address, SL_STATUS_OK) ::
      (Cmd.gatt_server_write_attribute_value demoPlatform.gattdb_system_id 0 8
        [0x06, 0x05, 0x04, 0xFF, 0xFE, 0x03, 0x02, 0x01], sc) :: rest) :=
  ⟨rfl, rfl,
    (boot_writes_system_id demoPlatform demoStack demoState ⟨fun i => i.val + 1⟩ rfl rfl).1⟩

/-- C4, the code at the failing input: `app.c` declares the callback pointer
`s_ble_stack__event_callback` and calls through it, but never assigns it.  In
every state reached from the startup state by any sequence of events the
pointer is null and no callback call has been made, and an attribute-value
write event handled there ends in a call through the null pointer instead of
an invocation of an application callback; so does the write event of the
claim (connection 7, length 3, bytes `[0xAA, 0xBB, 0xCC]`) at startup. -/
theorem write_event_calls_null_pointer (P : Platform) (stack : Stack)
    (evts : List sl_bt_msg_t) (connection : Nat) (value : uint8array) :
    (deliver P stack (startup P) evts).state.s_ble_stack__event_callback = none ∧
    (deliver P stack (startup P) evts).state.calls = [] ∧
    sl_bt_on_event P stack (deliver P stack (startup P) evts).state
        (sl_bt_msg_t.gatt_server_attribute_value connection value)
      = ⟨Exit.null_call, (deliver P stack (startup P) evts).state⟩ ∧
    sl_bt_on_event demoPlatform demoStack (startup demoPlatform)
        (sl_bt_msg_t.gatt_server_attribute_value 7 ⟨3, [0xAA, 0xBB, 0xCC]⟩)
      = ⟨Exit.null_call, startup demoPlatform⟩ := by
  have h := deliver_callback P stack evts (startup P) rfl rfl
  refine ⟨h.1, h.2, ?_, rfl⟩
  simp only [sl_bt_on_event, on_ble_write, h.1]

/-- C5: when a boot event is dispatched and every command it issues returns
success, the dispatcher returns having issued exactly, in this order,
get_identity_address, write_attribute(system-ID, offset 0, length 8, the
identifier of the returned address `a`), create_advertising_set,
set_advertising_timing(h, 160, 160, 0, 0) and start_advertising(h,
general-discoverable, connectable), where `h` is the handle the stack returned
from create_advertising_set; the stored advertising-set handle is then `h`, and
nothing else of the state has changed. -/
theorem boot_success_commands (P : Platform) (stack : Stack) (s : State)
    (a : bd_addr) (h : Nat)
    (ha : (stack s.log Cmd.system_get_identity_address).address = a)
    (hh : (stack (s.log ++ [(Cmd.system_get_identity_address, SL_STATUS_OK),
              (Cmd.gatt_server_write_attribute_value P.gattdb_system_id 0 8 (system_id a),
                SL_STATUS_OK)])
            Cmd.advertiser_create_set).handle = h)
    (hok : ∀ entry ∈ issued s (sl_bt_on_event P stack s sl_bt_msg_t.system_boot),
      entry.2 = SL_STATUS_OK) :
    sl_bt_on_event P stack s sl_bt_msg_t.system_boot = ⟨Exit.returned,
      { s with
        advertising_set_handle := h
        log := s.log ++
          [(Cmd.system_get_identity_address, SL_STATUS_OK),
           (Cmd.gatt_server_write_attribute_value P.gattdb_system_id 0 8 (system_id a),
              SL_STATUS_OK),
           (Cmd.advertiser_create_set, SL_STATUS_OK),
           (Cmd.advertiser_set_timing h 160 160 0 0, SL_STATUS_OK),
           (Cmd.advertiser_start h
              P.advertiser_general_discoverable P.advertiser_connectable_scannable,
              SL_STATUS_OK)] }⟩ :=
  on_system_boot_success P stack s a h ha hh hok

theorem boot_success_commands_witness :
    (∀ entry ∈ issued (startup demoPlatform)
        (sl_bt_on_event demoPlatform demoStack (startup demoPlatform) sl_bt_msg_t.system_boot),
      entry.2 = SL_STATUS_OK) ∧
    sl_bt_on_event demoPlatform demoStack (startup demoPlatform) sl_bt_msg_t.system_boot =
      ⟨Exit.returned,
        { startup demoPlatform with
          advertising_set_handle := 2
          log :=
            [(Cmd.system_get_identity_address, 0),
             (Cmd.gatt_server_write_attribute_value 18 0 8
                [0x06, 0x05, 0x04, 0xFF, 0xFE, 0x03, 0x02, 0x01], 0),
             (Cmd.advertiser_create_set, 0),
             (Cmd.advertiser_set_timing 2 160 160 0 0, 0),
             (Cmd.advertiser_start 2 2 2, 0)] }⟩ :=
  ⟨by decide,
    boot_success_commands demoPlatform demoStack (startup demoPlatform)
      ⟨fun i => i.val + 1⟩ 2 rfl rfl (by decide)⟩

/-- C6: let `s1` be the state in which a boot event returned, and `s2` a state
reached from `s1` by further events none of which is a boot event.  The boot
ended with start_advertising(`s1.advertising_set_handle`,
general-discoverable, connectable); a connection-closed event dispatched in
`s2` issues exactly one command, start_advertising with the same handle and
the same two modes, and leaves the stored advertising-set handle and the
session table unchanged. -/
theorem closed_restarts_advertising (P : Platform) (stack : Stack) (s0 s1 s2 : State)
    (evts : List sl_bt_msg_t)
    (hboot : sl_bt_on_event P stack s0 sl_bt_msg_t.system_boot = ⟨Exit.returned, s1⟩)
    (hno : sl_bt_msg_t.system_boot ∉ evts)
    (hrun : deliver P stack s1 evts = ⟨Exit.returned, s2⟩) :
    (issued s0 (sl_bt_on_event P stack s0 sl_bt_msg_t.system_boot)).getLast? =
      some (Cmd.advertiser_start s1.advertising_set_handle
        P.advertiser_general_discoverable P.advertiser_connectable_scannable,
        SL_STATUS_OK) ∧
    (∃ sc, issued s2 (sl_bt_on_event P stack s2 sl_bt_msg_t.connection_closed) =
      [(Cmd.advertiser_start s1.advertising_set_handle
        P.advertiser_general_discoverable P.advertiser_connectable_scannable, sc)]) ∧
    (sl_bt_on_event P stack s2 sl_bt_msg_t.connection_closed).state.advertising_set_handle
      = s1.advertising_set_handle ∧
    s2.advertising_set_handle = s1.advertising_set_handle ∧
    (sl_bt_on_event P stack s2 sl_bt_msg_t.connection_closed).state.s_ble_stack_session
      = s2.s_ble_stack_session := by
  have hh : s2.advertising_set_handle = s1.advertising_set_handle := by
    have := deliver_advertising_set_handle P stack evts hno s1
    rw [hrun] at this
    exact this
  have heff := on_connection_closed_effect P stack s2
  refine ⟨on_system_boot_returned_last P stack s0 s1 hboot, ?_, ?_, hh, ?_⟩
  · refine ⟨(stack s2.log (Cmd.advertiser_start s2.advertising_set_handle
      P.advertiser_general_discoverable P.advertiser_connectable_scannable)).sc, ?_⟩
    simp only [sl_bt_on_event, issued, heff]
    simp [hh]
  · simp only [sl_bt_on_event, heff]
    exact hh
  · simp only [sl_bt_on_event, heff]

theorem closed_restarts_advertising_witness :
    sl_bt_on_event demoPlatform demoStack (startup demoPlatform) sl_bt_msg_t.system_boot
      = ⟨Exit.returned, bootedState⟩ ∧
    sl_bt_msg_t.system_boot ∉
      [sl_bt_msg_t.connection_opened, sl_bt_msg_t.gatt_server_characteristic_status 0 42] ∧
    deliver demoPlatform demoStack bootedState
      [sl_bt_msg_t.connection_opened, sl_bt_msg_t.gatt_server_characteristic_status 0 42]
      = ⟨Exit.returned,
          { bootedState with s_ble_stack_session := [⟨0, 42⟩, ⟨0, 0⟩, ⟨0, 0⟩, ⟨0, 0⟩] }⟩ ∧
    (∃ sc, issued { bootedState with s_ble_stack_session := [⟨0, 42⟩, ⟨0, 0⟩, ⟨0, 0⟩, ⟨0, 0⟩] }
        (sl_bt_on_event demoPlatform demoStack
          { bootedState with s_ble_stack_session := [⟨0, 42⟩, ⟨0, 0⟩, ⟨0, 0⟩, ⟨0, 0⟩] }
          sl_bt_msg_t.connection_closed) =
      [(Cmd.advertiser_start 2 2 2, sc)]) :=
  ⟨by decide, by decide, by decide,
    (closed_restarts_advertising demoPlatform demoStack (startup demoPlatform) bootedState
      { bootedState with s_ble_stack_session := [⟨0, 42⟩, ⟨0, 0⟩, ⟨0, 0⟩, ⟨0, 0⟩] }
      [sl_bt_msg_t.connection_opened, sl_bt_msg_t.gatt_server_characteristic_status 0 42]
      (by decide) (by decide) (by decide)).2.1⟩

/-- C7: for a boot event and for a connection-closed event, the log grows by
the commands issued; the dispatcher ends in a failed assertion if and only if
some command it issued returned a non-success status, and returns if and only
if all of them succeeded; every command issued except the last one succeeded,
so nothing is issued after a failing command. -/
theorem command_failure_is_fatal (P : Platform) (stack : Stack) (s : State)
    (evt : sl_bt_msg_t)
    (hevt : evt = sl_bt_msg_t.system_boot ∨ evt = sl_bt_msg_t.connection_closed) :
    (sl_bt_on_event P stack s evt).state.log
      = s.log ++ issued s (sl_bt_on_event P stack s evt) ∧
    ((sl_bt_on_event P stack s evt).exit = Exit.assert_failed ↔
      ∃ entry ∈ issued s (sl_bt_on_event P stack s evt), entry.2 ≠ SL_STATUS_OK) ∧
    ((sl_bt_on_event P stack s evt).exit = Exit.returned ↔
      ∀ entry ∈ issued s (sl_bt_on_event P stack s evt), entry.2 = SL_STATUS_OK) ∧
    (∀ entry ∈ (issued s (sl_bt_on_event P stack s evt)).dropLast,
      entry.2 = SL_STATUS_OK) := by
  rcases hevt with h | h
  · subst h
    exact on_system_boot_log P stack s
  · subst h
    exact on_connection_closed_log P stack s

theorem command_failure_is_fatal_witness :
    (sl_bt_msg_t.system_boot = sl_bt_msg_t.system_boot ∨
      sl_bt_msg_t.system_boot = sl_bt_msg_t.connection_closed) ∧
    ((sl_bt_on_event demoPlatform failingStack demoState sl_bt_msg_t.system_boot).exit
        = Exit.assert_failed ↔
      ∃ entry ∈ issued demoState
          (sl_bt_on_event demoPlatform failingStack demoState sl_bt_msg_t.system_boot),
        entry.2 ≠ SL_STATUS_OK) :=
  ⟨Or.inl rfl,
    (command_failure_is_fatal demoPlatform failingStack demoState sl_bt_msg_t.system_boot
      (Or.inl rfl)).2.1⟩

/-- The boot handler on a stack whose create_advertising_set fails: the
assertion after it fails, and neither set_advertising_timing nor
start_advertising has been issued. -/
theorem boot_create_set_failure :
    sl_bt_on_event demoPlatform failingStack demoState sl_bt_msg_t.system_boot =
      ⟨Exit.assert_failed,
        { demoState with
          advertising_set_handle := 2
          log :=
            [(Cmd.system_get_identity_address, 0),
             (Cmd.gatt_server_write_attribute_value 18 0 8
                [0x06, 0x05, 0x04, 0xFF, 0xFE, 0x03, 0x02, 0x01], 0),
             (Cmd.advertiser_create_set, 1)] }⟩ := by
  decide

/-- C8, as stated, fails: after a boot event handled successfully from the
startup state (handle 2 stored, five commands issued), a second boot event
issues the five boot commands again and replaces the stored advertising-set
handle by 7. -/
theorem second_boot_reruns :
    sl_bt_on_event demoPlatform demoStack (startup demoPlatform) sl_bt_msg_t.system_boot
      = ⟨Exit.returned, bootedState⟩ ∧
    bootedState.advertising_set_handle = 2 ∧
    issued bootedState
        (sl_bt_on_event demoPlatform demoStack bootedState sl_bt_msg_t.system_boot) =
      [(Cmd.system_get_identity_address, 0),
       (Cmd.gatt_server_write_attribute_value 18 0 8
          [0x06, 0x05, 0x04, 0xFF, 0xFE, 0x03, 0x02, 0x01], 0),
       (Cmd.advertiser_create_set, 0),
       (Cmd.advertiser_set_timing 7 160 160 0 0, 0),
       (Cmd.advertiser_start 7 2 2, 0)] ∧
    (sl_bt_on_event demoPlatform demoStack bootedState
      sl_bt_msg_t.system_boot).state.advertising_set_handle = 7 := by
  decide

/-- C8, amended: the dispatcher has no boot-once guard.  A boot event
dispatched in the state `s1` in which an earlier boot event returned runs the
boot sequence again: when every command it issues succeeds, it returns having
issued the same five commands after those of the first boot, with the handle
`h` returned by the new create_advertising_set, which replaces the stored
advertising-set handle. -/
theorem second_boot_runs_again (P : Platform) (stack : Stack) (s0 s1 : State)
    (a : bd_addr) (h : Nat)
    (hboot : sl_bt_on_event P stack s0 sl_bt_msg_t.system_boot = ⟨Exit.returned, s1⟩)
    (ha : (stack s1.log Cmd.system_get_identity_address).address = a)
    (hh : (stack (s1.log ++ [(Cmd.system_get_identity_address, SL_STATUS_OK),
              (Cmd.gatt_server_write_attribute_value P.gattdb_system_id 0 8 (system_id a),
                SL_STATUS_OK)])
            Cmd.advertiser_create_set).handle = h)
    (hok : ∀ entry ∈ issued s1 (sl_bt_on_event P stack s1 sl_bt_msg_t.system_boot),
      entry.2 = SL_STATUS_OK) :
    (issued s0 (sl_bt_on_event P stack s0 sl_bt_msg_t.system_boot)).length = 5 ∧
    (sl_bt_on_event P stack s1 sl_bt_msg_t.system_boot).exit = Exit.returned ∧
    issued s1 (sl_bt_on_event P stack s1 sl_bt_msg_t.system_boot) =
      [(Cmd.system_get_identity_address, SL_STATUS_OK),
       (Cmd.gatt_server_write_attribute_value P.gattdb_system_id 0 8 (system_id a),
          SL_STATUS_OK),
       (Cmd.advertiser_create_set, SL_STATUS_OK),
       (Cmd.advertiser_set_timing h 160 160 0 0, SL_STATUS_OK),
       (Cmd.advertiser_start h
          P.advertiser_general_discoverable P.advertiser_connectable_scannable,
          SL_STATUS_OK)] ∧
    (sl_bt_on_event P stack s1 sl_bt_msg_t.system_boot).state.advertising_set_handle = h := by
  have h2 := on_system_boot_success P stack s1 a h ha hh hok
  have hex : (on_system_boot P stack s0).exit = Exit.returned := by
    have := congrArg Outcome.exit hboot
    exact this
  have hok0 := (on_system_boot_log P stack s0).2.2.1.mp hex
  have h1 := on_system_boot_success P stack s0 _ _ rfl rfl hok0
  refine ⟨?_, ?_, ?_, ?_⟩
  · simp only [sl_bt_on_event]
    rw [h1]
    simp [issued]
  · simp only [sl_bt_on_event]
    rw [h2]
  · simp only [sl_bt_on_event]
    rw [h2]
    simp [issued]
  · simp only [sl_bt_on_event]
    rw [h2]

theorem second_boot_runs_again_witness :
    sl_bt_on_event demoPlatform demoStack (startup demoPlatform) sl_bt_msg_t.system_boot
      = ⟨Exit.returned, bootedState⟩ ∧
    (∀ entry ∈ issued bootedState
        (sl_bt_on_event demoPlatform demoStack bootedState sl_bt_msg_t.system_boot),
      entry.2 = SL_STATUS_OK) ∧
    (sl_bt_on_event demoPlatform demoStack bootedState
      sl_bt_msg_t.system_boot).state.advertising_set_handle = 7 :=
  ⟨by decide, by decide,
    (second_boot_runs_again demoPlatform demoStack (startup demoPlatform) bootedState
      ⟨fun i => i.val + 1⟩ 7 (by decide) rfl rfl (by decide)).2.2.2⟩

/-- C9: a connection-opened event, a connection-parameters event, and an event
of any kind that is none of the six case labels are no-ops: the dispatcher
returns with the state unchanged (same session table, same advertising-set
handle, no stack command logged, no callback call logged). -/
theorem unhandled_events_noop (P : Platform) (stack : Stack) (s : State) :
    sl_bt_on_event P stack s sl_bt_msg_t.connection_opened = ⟨Exit.returned, s⟩ ∧
    sl_bt_on_event P stack s sl_bt_msg_t.connection_parameters = ⟨Exit.returned, s⟩ ∧
    (∀ id, sl_bt_on_event P stack s (sl_bt_msg_t.other id) = ⟨Exit.returned, s⟩) :=
  ⟨rfl, rfl, fun _ => rfl⟩

/-- C10: handling an event, of any kind and however the call ends, leaves
every slot's `connection_handle` and the number of slots unchanged; so after
any sequence of events from the startup state the table still has
`SL_BT_CONFIG_MAX_CONNECTIONS` slots, each with `connection_handle` 0 as at
startup, and only `characteristic_handle` fields can differ. -/
theorem connection_handles_never_change (P : Platform) (stack : Stack) :
    (∀ (s : State) (evt : sl_bt_msg_t),
      (sl_bt_on_event P stack s evt).state.s_ble_stack_session.map
          (fun slot => slot.connection_handle)
        = s.s_ble_stack_session.map (fun slot => slot.connection_handle) ∧
      (sl_bt_on_event P stack s evt).state.s_ble_stack_session.length
        = s.s_ble_stack_session.length) ∧
    (∀ evts : List sl_bt_msg_t,
      (deliver P stack (startup P) evts).state.s_ble_stack_session.map
          (fun slot => slot.connection_handle)
        = List.replicate P.SL_BT_CONFIG_MAX_CONNECTIONS 0 ∧
      (deliver P stack (startup P) evts).state.s_ble_stack_session.length
        = P.SL_BT_CONFIG_MAX_CONNECTIONS) := by
  constructor
  · intro s evt
    have h := sl_bt_on_event_handles P stack s evt
    refine ⟨h, ?_⟩
    have := congrArg List.length h
    simpa using this
  · intro evts
    have h := deliver_handles P stack evts (startup P)
    have h0 : (startup P).s_ble_stack_session.map (fun slot => slot.connection_handle)
        = List.replicate P.SL_BT_CONFIG_MAX_CONNECTIONS 0 := by
      simp [startup]
    rw [h0] at h
    refine ⟨h, ?_⟩
    have := congrArg List.length h
    simpa using this

end App
